import Mathlib

/-!
Verification of the Mastodon OAuth2 adapter (`adapter.py`, `mastodon_cli.py`)
against its specification.

The adapter's pure data manipulation is embedded directly; the HTTP calls it
makes (token endpoint, userinfo endpoint, resource endpoint, revocation
endpoint) are modelled as explicit inputs: each outbound call's outcome is an
`Except` value (an exception raised by the transport layer, or a response)
supplied to the embedded function.  Python dicts are modelled as association
lists with first-match lookup, Python truthiness and `str.split()` are
modelled explicitly.
-/

set_option autoImplicit false

namespace MastodonOAuth2

/-- A JSON value, as produced by Python's `json` module. -/
inductive Json where
  | null
  | bool (b : Bool)
  | num (n : Int)
  | str (s : String)
  | arr (elems : List Json)
  | obj (fields : List (String × Json))

/-- The runtime values that flow through the adapter's keyword arguments. -/
inductive PyValue where
  | none
  | bool (b : Bool)
  | str (s : String)
  | strlist (xs : List String)
  deriving DecidableEq, Repr

/-- Python truthiness of a `PyValue`. -/
def PyValue.truthy : PyValue → Bool
  | .none => false
  | .bool b => b
  | .str s => s != ""
  | .strlist xs => !xs.isEmpty

/-- Python truthiness of an optional string (both `None` and `""` are falsy). -/
def pyTruthy : Option String → Bool
  | Option.none => false
  | Option.some s => s != ""

/-- Python truthiness of a JSON value. -/
def jTruthy : Json → Bool
  | .null => false
  | .bool b => b
  | .num n => n != 0
  | .str s => s != ""
  | .arr xs => !xs.isEmpty
  | .obj fs => !fs.isEmpty

section Dict

variable {α : Type}

/-- First-match association lookup: the model of Python `d.get(k)`. -/
def pyLookup (l : List (String × α)) (k : String) : Option α :=
  match l with
  | [] => Option.none
  | (k', v) :: rest => if k' = k then Option.some v else pyLookup rest k

/-- Python dict merge `{**a, **b}` / `a.update(b)`: keys of `a` keep their
position but take `b`'s value when `b` also binds them; keys only in `b`
are appended in `b`'s order. -/
def pyMergeRight (a b : List (String × α)) : List (String × α) :=
  a.map (fun kv => (kv.1, (pyLookup b kv.1).getD kv.2))
    ++ b.filter (fun kv => (pyLookup a kv.1).isNone)

/-- Python dict assignment `d[k] = v`: replaces the value at an existing key
in place, else appends the new binding. -/
def pyDictSet (l : List (String × α)) (k : String) (v : α) : List (String × α) :=
  match l with
  | [] => [(k, v)]
  | (k', v') :: rest => if k' = k then (k, v) :: rest else (k', v') :: pyDictSet rest k v

/-- Python `d.pop(k, default)`'s effect on the dict: the binding of `k`, if
any, is removed. -/
def pyDictRemove (l : List (String × α)) (k : String) : List (String × α) :=
  match l with
  | [] => []
  | (k', v') :: rest => if k' = k then rest else (k', v') :: pyDictRemove rest k

theorem pyLookup_append (l₁ l₂ : List (String × α)) (k : String) :
    pyLookup (l₁ ++ l₂) k =
      match pyLookup l₁ k with
      | Option.some v => Option.some v
      | Option.none => pyLookup l₂ k := by
  induction l₁ with
  | nil => simp [pyLookup]
  | cons kv rest ih =>
    obtain ⟨k', v⟩ := kv
    by_cases h : k' = k <;> simp [pyLookup, h, ih]

theorem pyLookup_map_getD (a b : List (String × α)) (k : String) :
    pyLookup (a.map (fun kv => (kv.1, (pyLookup b kv.1).getD kv.2))) k =
      (pyLookup a k).map (fun v => (pyLookup b k).getD v) := by
  induction a with
  | nil => simp [pyLookup]
  | cons kv rest ih =>
    obtain ⟨k', v⟩ := kv
    by_cases h : k' = k
    · subst h; simp [pyLookup]
    · simp [pyLookup, h, ih]

theorem pyLookup_filter_keyPred (b : List (String × α)) (p : String → Bool)
    (k : String) (hk : p k = true) :
    pyLookup (b.filter (fun kv => p kv.1)) k = pyLookup b k := by
  induction b with
  | nil => simp [pyLookup]
  | cons kv rest ih =>
    obtain ⟨k', v⟩ := kv
    by_cases h : k' = k
    · subst h; simp [pyLookup, hk]
    · by_cases hp : p k' = true <;> simp [pyLookup, h, hp, ih]

/-- On key collision the right dict wins. -/
theorem pyLookup_mergeRight_of_some (a b : List (String × α)) (k : String)
    (v : α) (h : pyLookup b k = Option.some v) :
    pyLookup (pyMergeRight a b) k = Option.some v := by
  unfold pyMergeRight
  rw [pyLookup_append, pyLookup_map_getD, h]
  cases ha : pyLookup a k with
  | some w => simp
  | none =>
    simp only [Option.map_none']
    have : (fun kv : String × α => (pyLookup a kv.1).isNone) =
        (fun kv : String × α => (pyLookup a kv.1).isNone) := rfl
    rw [pyLookup_filter_keyPred (p := fun s => (pyLookup a s).isNone)]
    · exact h
    · simp [ha]

/-- A key absent from the right dict keeps the left dict's value. -/
theorem pyLookup_mergeRight_of_none (a b : List (String × α)) (k : String)
    (h : pyLookup b k = Option.none) :
    pyLookup (pyMergeRight a b) k = pyLookup a k := by
  unfold pyMergeRight
  rw [pyLookup_append, pyLookup_map_getD, h]
  cases ha : pyLookup a k with
  | some w => simp
  | none =>
    simp only [Option.map_none']
    rw [pyLookup_filter_keyPred (p := fun s => (pyLookup a s).isNone)]
    · exact h
    · simp [ha]

theorem pyLookup_dictSet_self (l : List (String × α)) (k : String) (v : α) :
    pyLookup (pyDictSet l k v) k = Option.some v := by
  induction l with
  | nil => simp [pyDictSet, pyLookup]
  | cons kv rest ih =>
    obtain ⟨k', v'⟩ := kv
    by_cases h : k' = k <;> simp [pyDictSet, pyLookup, h, ih]

theorem pyLookup_dictSet_other (l : List (String × α)) (k k' : String) (v : α)
    (h : k' ≠ k) : pyLookup (pyDictSet l k v) k' = pyLookup l k' := by
  induction l with
  | nil => simp [pyDictSet, pyLookup, Ne.symm h]
  | cons kv rest ih =>
    obtain ⟨k'', v''⟩ := kv
    by_cases h2 : k'' = k
    · subst h2; simp [pyDictSet, pyLookup, Ne.symm h]
    · by_cases h3 : k'' = k' <;> simp [pyDictSet, pyLookup, h2, h3, h, ih]

theorem mem_pyDictSet (l : List (String × α)) (k : String) (v : α) :
    (k, v) ∈ pyDictSet l k v := by
  induction l with
  | nil => simp [pyDictSet]
  | cons kv rest ih =>
    obtain ⟨k', v'⟩ := kv
    by_cases h : k' = k <;> simp [pyDictSet, h, ih]

theorem pyLookup_dictRemove_other (l : List (String × α)) (k k' : String)
    (h : k' ≠ k) : pyLookup (pyDictRemove l k) k' = pyLookup l k' := by
  induction l with
  | nil => simp [pyDictRemove]
  | cons kv rest ih =>
    obtain ⟨k'', v''⟩ := kv
    by_cases h2 : k'' = k
    · subst h2; simp [pyDictRemove, pyLookup, Ne.symm h]
    · by_cases h3 : k'' = k' <;> simp [pyDictRemove, pyLookup, h2, h3, h, ih]

end Dict

/-- Helper of `pySplitWs`: walks the characters, accumulating the current
(reversed) word and emitting it at each whitespace run or at the end. -/
def pySplitWsAux (cs : List Char) (acc : List Char) : List String :=
  match cs with
  | [] => if acc.isEmpty then [] else [String.mk acc.reverse]
  | c :: rest =>
    if c.isWhitespace then
      if acc.isEmpty then pySplitWsAux rest []
      else String.mk acc.reverse :: pySplitWsAux rest []
    else pySplitWsAux rest (c :: acc)

/-- Python `str.split()` with no argument: split on whitespace runs,
discarding empty pieces. -/
def pySplitWs (s : String) : List String := pySplitWsAux s.data []

/-- Python `set(a).issubset(set(b))`, the lists standing for the sets of
their elements. -/
def pySubset (a b : List String) : Bool :=
  a.all (fun x => b.contains x)

/-- Model of `DEFAULT_CONFIG["params"]["scope"]` in `adapter.py`: the required scope
list of the adapter. -/
def defaultScope : List String := ["profile", "write:statuses"]

/-- Model of `DEFAULT_CONFIG["params"]` in `adapter.py`: the default query parameters
of the authorization request. -/
def default_params : List (String × PyValue) :=
  [("scope", .strlist defaultScope), ("response_type", .str "code")]

/-- An HTTP response as seen through Python requests: `ok` is true exactly
when the status code is below 400; `jsonBody` is the parse of the body
(`Option.none` when `.json()` would raise a decode error). -/
structure HttpResp where
  status : Nat
  text : String
  jsonBody : Option Json

/-- Model of `requests.Response.ok`: status code below 400. -/
def HttpResp.ok (r : HttpResp) : Bool := r.status < 400

/-- A provider token-endpoint response as accepted by
`OAuth2Session.fetch_token`: the standard OAuth2 string fields, each possibly
absent (`Option.none`) or present (possibly empty). -/
structure TokenResponse where
  access_token : Option String
  refresh_token : Option String
  scope : Option String
  token_type : Option String

/-- The mutable state of the adapter's `OAuth2Session` that the embedded
operations read and write. -/
structure SessionState where
  redirect_uri : PyValue
  code_challenge_method : Option String
  token : Option TokenResponse

/-- The exceptions `exchange_code_and_fetch_user_info` can let escape:
OAuth errors and transport errors from the two outbound calls, the
`ValueError` of the scope check (carrying both scope sets), a JSON decode
error from `.json()`, and the attribute error of calling `.get` on a
non-object userinfo body. -/
inductive ExchErr where
  | oauthError (msg : String)
  | transportError (msg : String)
  | scopeError (expected received : List String)
  | jsonDecodeError
  | attributeError

/-- The normalised identity summary built from the userinfo body. -/
structure UserInfo where
  account_identifier : Option Json
  name : Option Json

/-- The value returned by a successful exchange. -/
structure ExchangeResult where
  token : TokenResponse
  userinfo : UserInfo

/-- Embedding of `MastodonOAuth2Adapter.exchange_code_and_fetch_user_info`: redirect
override, token fetch, refresh-token normalisation, scope validation, and
userinfo fetch, in the source's order.  `fetchToken` is the outcome of
`self.session.fetch_token(...)` and `userinfoFetch` the outcome of
`self.session.get(userinfo_uri)`; the `except OAuthError` re-raises, so every
error propagates unchanged.  The userinfo response's HTTP status is never
inspected (only its body is parsed), mirroring the source. -/
def exchange_code_and_fetch_user_info (st : SessionState)
    (redirect_url : Option String)
    (fetchToken : Except ExchErr TokenResponse)
    (userinfoFetch : Except ExchErr HttpResp) :
    Except ExchErr ExchangeResult × SessionState :=
  let st := if pyTruthy redirect_url then
      { st with redirect_uri := .str (redirect_url.getD "") } else st
  match fetchToken with
  | .error e => (.error e, st)
  | .ok tokenResponse =>
    let tokenResponse :=
      if pyTruthy tokenResponse.refresh_token then tokenResponse
      else { tokenResponse with refresh_token := tokenResponse.access_token }
    let st := { st with token := Option.some tokenResponse }
    let fetched_scopes := pySplitWs (tokenResponse.scope.getD "")
    let expected_scopes := defaultScope
    if !(pySubset expected_scopes fetched_scopes) then
      (.error (.scopeError expected_scopes fetched_scopes), st)
    else
      match userinfoFetch with
      | .error e => (.error e, st)
      | .ok resp =>
        match resp.jsonBody with
        | Option.none => (.error .jsonDecodeError, st)
        | Option.some (.obj fields) =>
          (.ok { token := tokenResponse,
                 userinfo := { account_identifier := pyLookup fields "preferred_username",
                               name := pyLookup fields "name" } }, st)
        | Option.some _ => (.error .attributeError, st)

/-- The exceptions `send_message` can raise or catch: the `RuntimeError`
raised on a non-ok response, a `requests.exceptions.HTTPError` (the only
class the handler catches), and other transport errors. -/
inductive SendErr where
  | runtimeError (text : String)
  | httpError (text : String)
  | transportError (msg : String)

/-- Outcome of `self.session.post(...)` when no exception is raised: the
response, and the session's token after the call (the transport layer may
have rotated it). -/
structure SendOutcome where
  resp : HttpResp
  tokenAfter : TokenResponse

/-- The structured result `send_message` returns: `message` is
`Option.none` when the key is absent from the returned dict. -/
structure SendResult where
  success : Bool
  message : Option String
  refreshed_token : TokenResponse

/-- Embedding of `MastodonOAuth2Adapter.send_message`: sets the session token, posts the
status, raises `RuntimeError(response.text)` when the response is not ok
(`raise_for_status()` on an ok response does nothing), and catches only
`requests.exceptions.HTTPError`, turning it into the structured failure
result. -/
def send_message (token : TokenResponse) (post : Except SendErr SendOutcome) :
    Except SendErr SendResult :=
  let attempt : Except SendErr SendResult :=
    match post with
    | .error e => .error e
    | .ok o =>
      if o.resp.ok then
        .ok { success := true, message := Option.none, refreshed_token := o.tokenAfter }
      else .error (.runtimeError o.resp.text)
  match attempt with
  | .error (.httpError t) =>
      .ok { success := false, message := Option.some t, refreshed_token := token }
  | r => r

/-- The exceptions `revoke_token` can raise: the `RuntimeError` of a non-ok
response, OAuth errors (caught, logged and re-raised), and transport
errors. -/
inductive RevokeErr where
  | oauthError (msg : String)
  | runtimeError (text : String)
  | transportError (msg : String)

/-- Embedding of `MastodonOAuth2Adapter.revoke_token`: sets the session token, calls the
revocation endpoint (`revokeCall` is that call's outcome), raises
`RuntimeError(response.text)` when the response is not ok, and returns
`True` otherwise; the `except OAuthError` re-raises, so every exception
propagates. -/
def revoke_token (token : TokenResponse) (revokeCall : Except RevokeErr HttpResp) :
    Except RevokeErr Bool :=
  match revokeCall with
  | .error e => .error e
  | .ok resp => if resp.ok then .ok true else .error (.runtimeError resp.text)

/-- The client credentials loaded from the credentials file. -/
structure Credentials where
  client_id : String
  client_secret : String
  redirect_uri : String

/-- Model of `DEFAULT_CONFIG["urls"]["auth_uri"]` in `adapter.py`. -/
def auth_uri : String := "https://mastodon.social/oauth/authorize"

/-- Model of `authlib.common.security.generate_token(length)`: a random string of
exactly `length` characters, the randomness supplied as a character
source. -/
def generate_token (rand : Nat → Char) (length : Nat) : String :=
  String.mk ((List.range length).map rand)

theorem generate_token_length (rand : Nat → Char) (n : Nat) :
    (generate_token rand n).length = n := by
  simp [generate_token, String.length]

theorem generate_token_truthy (rand : Nat → Char) :
    (PyValue.str (generate_token rand 48)).truthy = true := by
  simp only [PyValue.truthy, bne_iff_ne, ne_eq]
  intro hh
  have := generate_token_length rand 48
  rw [hh] at this
  simp at this

/-- Model of `create_s256_code_challenge` from authlib: the Base64url encoding of the
SHA-256 digest of the verifier.  The digest's value is irrelevant to every
claim, so it is modelled as an uninterpreted tagging of the verifier. -/
def create_s256_code_challenge (verifier : String) : String :=
  "sha256." ++ verifier

/-- Rendering of one query-parameter value into the URL (a scope list is
space-joined, as by authlib's list-to-scope conversion). -/
def renderValue : PyValue → String
  | .none => "None"
  | .bool b => if b then "True" else "False"
  | .str s => s
  | .strlist xs => String.intercalate " " xs

/-- Rendering of one `key=value` query pair. -/
def renderPair (p : String × PyValue) : String := p.1 ++ "=" ++ renderValue p.2

/-- Rendering of a query-parameter list, `&`-separated. -/
def renderQuery : List (String × PyValue) → String
  | [] => ""
  | [p] => renderPair p
  | p :: q :: ps => renderPair p ++ "&" ++ renderQuery (q :: ps)

/-- Predicate: `small` occurs as a contiguous substring of `big`. -/
def strContainsSub (big small : String) : Prop :=
  ∃ s t : List Char, s ++ small.data ++ t = big.data

theorem strContainsSub_refl (s : String) : strContainsSub s s :=
  ⟨[], [], by simp⟩

theorem strContainsSub_append_left (a big small : String)
    (h : strContainsSub big small) : strContainsSub (a ++ big) small := by
  obtain ⟨s, t, hh⟩ := h
  exact ⟨a.data ++ s, t, by rw [String.data_append, List.append_assoc,
    List.append_assoc, ← List.append_assoc s, hh]⟩

theorem strContainsSub_append_right (big b small : String)
    (h : strContainsSub big small) : strContainsSub (big ++ b) small := by
  obtain ⟨s, t, hh⟩ := h
  exact ⟨s, t ++ b.data, by rw [String.data_append, ← hh]; simp⟩

/-- A pair in the query list renders into the query string. -/
theorem renderQuery_contains (qs : List (String × PyValue)) (p : String × PyValue)
    (hp : p ∈ qs) : strContainsSub (renderQuery qs) (renderPair p) := by
  induction qs with
  | nil => cases hp
  | cons q rest ih =>
    rcases List.mem_cons.mp hp with hq | hrest
    · subst hq
      cases rest with
      | nil => exact strContainsSub_refl _
      | cons r rs =>
        exact strContainsSub_append_right _ _ _
          (strContainsSub_append_right _ _ _ (strContainsSub_refl _))
    · cases rest with
      | nil => cases hrest
      | cons r rs =>
        exact strContainsSub_append_left _ _ _ (ih hrest)

/-- Model of `OAuth2Session.create_authorization_url` (authlib), as documented: the
`state` parameter is the supplied one when truthy, else a freshly generated
token; when the session's code-challenge method is S256 and a truthy
`code_verifier` is among the parameters, the verifier is withheld from the
query and replaced by `code_challenge` (SHA-256-derived) together with
`code_challenge_method=S256`.  Returns the URL and the state. -/
def create_authorization_url (clientId : String) (st : SessionState)
    (endpoint : String) (params : List (String × PyValue)) (genState : String) :
    String × String :=
  let stateVal := (pyLookup params "state").getD .none
  let state := if stateVal.truthy then renderValue stateVal else genState
  let verifier := (pyLookup params "code_verifier").getD .none
  let rest := pyDictRemove (pyDictRemove params "state") "code_verifier"
  let challenge :=
    if verifier.truthy && (st.code_challenge_method == Option.some "S256") then
      [("code_challenge", PyValue.str (create_s256_code_challenge (renderValue verifier))),
       ("code_challenge_method", PyValue.str "S256")]
    else []
  let query := [("client_id", PyValue.str clientId), ("redirect_uri", st.redirect_uri)]
    ++ rest ++ [("state", PyValue.str state)] ++ challenge
  (endpoint ++ "?" ++ renderQuery query, state)

/-- The code verifier in effect in `get_authorization_url`: the supplied
one, or a generated 48-character token when auto-generation is requested and
none was supplied. -/
def effectiveVerifier (rand : Nat → Char) (kwargs : List (String × PyValue)) :
    PyValue :=
  let cv := (pyLookup kwargs "code_verifier").getD .none
  let autogen := (pyLookup kwargs "autogenerate_code_verifier").getD (.bool false)
  if autogen.truthy && !cv.truthy then .str (generate_token rand 48) else cv

/-- The kwargs as they stand at the parameter merge (line 138 of
`adapter.py`): the `autogenerate_code_verifier` and `redirect_url` keys
popped, the effective verifier written back when truthy. -/
def processedKwargs (rand : Nat → Char) (kwargs : List (String × PyValue)) :
    List (String × PyValue) :=
  let base := pyDictRemove (pyDictRemove kwargs "autogenerate_code_verifier") "redirect_url"
  let cv := effectiveVerifier rand kwargs
  if cv.truthy then pyDictSet base "code_verifier" cv else base

/-- The `params` dict of line 138 of `adapter.py`:
`params = {**self.default_config["params"], **kwargs}`. -/
def mergedAuthParams (rand : Nat → Char) (kwargs : List (String × PyValue)) :
    List (String × PyValue) :=
  pyMergeRight default_params (processedKwargs rand kwargs)

/-- The session state after `get_authorization_url`: the code-challenge
method is set to S256 whenever a verifier is in play, and the redirect URI
is overwritten when a truthy `redirect_url` is supplied. -/
def sessionAfterAuthUrl (st : SessionState) (rand : Nat → Char)
    (kwargs : List (String × PyValue)) : SessionState :=
  let cv := effectiveVerifier rand kwargs
  let st := if cv.truthy then { st with code_challenge_method := Option.some "S256" } else st
  let redirect_url := (pyLookup kwargs "redirect_url").getD .none
  if redirect_url.truthy then { st with redirect_uri := redirect_url } else st

/-- The dict returned by `get_authorization_url`. -/
structure AuthUrlResult where
  authorization_url : String
  state : String
  code_verifier : PyValue
  client_id : String
  scope : String
  redirect_uri : PyValue

/-- Embedding of `MastodonOAuth2Adapter.get_authorization_url`: reads `code_verifier`
from the kwargs, pops `autogenerate_code_verifier` and `redirect_url`,
generates a verifier when auto-generation is requested and none was given
(marking the session for S256), marks the session for S256 whenever a
verifier is in play, applies the redirect override, merges the default
parameters with the processed kwargs (kwargs win on collision), and builds
the authorization URL.  `rand` supplies the randomness of `generate_token`,
`genState` the state authlib would generate when none is supplied.  The
operation makes no outbound call: the URL is pure construction from
configuration, kwargs and session state. -/
def get_authorization_url (creds : Credentials) (st : SessionState)
    (rand : Nat → Char) (genState : String) (kwargs : List (String × PyValue)) :
    AuthUrlResult × SessionState :=
  let cv := effectiveVerifier rand kwargs
  let stA := sessionAfterAuthUrl st rand kwargs
  let params := mergedAuthParams rand kwargs
  let urlState := create_authorization_url creds.client_id stA auth_uri params genState
  ({ authorization_url := urlState.1,
     state := urlState.2,
     code_verifier := cv,
     client_id := creds.client_id,
     scope := String.intercalate "," defaultScope,
     redirect_uri := stA.redirect_uri }, stA)

/-- The object the `exchange` CLI command writes to its output file
(`mastodon_cli.py`, lines 119-132): the file's existing JSON object (an
empty object when the file does not exist) updated in place with the
`token` and `userinfo` keys. -/
def exchangeOutputWrite (existingFile : Option (List (String × Json)))
    (token userinfo : Json) : List (String × Json) :=
  pyMergeRight (existingFile.getD []) [("token", token), ("userinfo", userinfo)]

/-- The adapter arguments the `exchange` CLI command resolves. -/
structure ResolvedExchangeArgs where
  code : Option Json
  verifier : Option Json
  redirect : Option Json
  request_identifier : Option Json

/-- A command-line option value as a Python value (`Option.none` models an
option click left at its `None` default). -/
def cliOpt : Option String → Option Json
  | Option.none => Option.none
  | Option.some s => Option.some (.str s)

/-- Python `a or b` on optional JSON values: `a` when truthy, else `b`. -/
def pyOrJ (a b : Option Json) : Option Json :=
  if jTruthy (a.getD .null) then a else b

/-- The input-file parameter resolution of the `exchange` CLI command
(`mastodon_cli.py`, lines 94-107): each of code/verifier/redirect is
`cli_value or params.get(file_key)`; `request_identifier` is always
`params.get("request_identifier")`. -/
def resolveExchangeArgs (code verifier redirect : Option String)
    (fileParams : List (String × Json)) : ResolvedExchangeArgs :=
  { code := pyOrJ (cliOpt code) (pyLookup fileParams "authorization_code"),
    verifier := pyOrJ (cliOpt verifier) (pyLookup fileParams "code_verifier"),
    redirect := pyOrJ (cliOpt redirect) (pyLookup fileParams "redirect_uri"),
    request_identifier := pyLookup fileParams "request_identifier" }

/-! Concrete sample inputs used by the witnesses and counterexamples. -/

/-- Sample client credentials. -/
def creds0 : Credentials :=
  ⟨"cid123", "csecret", "https://app.example/cb"⟩

/-- Sample fresh session state (as after `MastodonOAuth2Adapter.__init__`,
which leaves the code-challenge method unset and the token absent). -/
def st0 : SessionState :=
  ⟨.str "https://app.example/cb", Option.none, Option.none⟩

/-- Sample token response with both tokens and sufficient scopes. -/
def tr0 : TokenResponse :=
  ⟨Option.some "AT", Option.some "RT", Option.some "profile write:statuses",
    Option.some "Bearer"⟩

/-- Sample token response without a refresh token. -/
def trNoRefresh : TokenResponse :=
  ⟨Option.some "AT", Option.none, Option.some "read:x profile write:statuses",
    Option.some "Bearer"⟩

/-- Sample token response granting only `profile`. -/
def trBadScope : TokenResponse :=
  ⟨Option.some "AT", Option.some "RT", Option.some "profile", Option.some "Bearer"⟩

/-- Sample successful userinfo response. -/
def uResp0 : HttpResp :=
  ⟨200, "body",
    Option.some (.obj [("preferred_username", .str "alice"), ("name", .str "Alice")])⟩

/-- Sample userinfo HTTP error response with a JSON body, as a Mastodon
server sends for an invalid token. -/
def uRespErr : HttpResp :=
  ⟨401, "unauthorized",
    Option.some (.obj [("error", .str "The access token is invalid")])⟩

/-- Sample deterministic randomness source. -/
def rand0 : Nat → Char := fun _ => 'a'

/-- C1: for a token-endpoint response accepted by `fetch_token`, the
exchange succeeds exactly when the required scope set is a subset of the
whitespace-split granted scope string (given that the subsequent userinfo
fetch yields a JSON object, the only situation in which the exchange can
succeed at all); when it is not a subset, the exchange fails — whatever the
userinfo outcome — with the `ValueError` carrying the expected and the
received scope sets, and no token is returned. -/
theorem exchange_scope_superset (st : SessionState) (rd : Option String)
    (tr : TokenResponse) (resp : HttpResp) (fields : List (String × Json))
    (hresp : resp.jsonBody = Option.some (.obj fields)) :
    ((exchange_code_and_fetch_user_info st rd (.ok tr) (.ok resp)).1.isOk
      = pySubset defaultScope (pySplitWs (tr.scope.getD ""))) ∧
    (pySubset defaultScope (pySplitWs (tr.scope.getD "")) = false →
      ∀ uf, (exchange_code_and_fetch_user_info st rd (.ok tr) uf).1
        = .error (.scopeError defaultScope (pySplitWs (tr.scope.getD "")))) := by
  constructor
  · by_cases hsub : pySubset defaultScope (pySplitWs (tr.scope.getD "")) = true <;>
      cases htr : pyTruthy tr.refresh_token <;>
      simp_all [exchange_code_and_fetch_user_info, Except.isOk, Except.toBool]
  · intro hsub uf
    cases htr : pyTruthy tr.refresh_token <;>
      simp_all [exchange_code_and_fetch_user_info]

/-- C1 witness: a granted scope of just `profile` is rejected with the
scope error naming both sets. -/
theorem exchange_scope_superset_witness :
    (exchange_code_and_fetch_user_info st0 Option.none (.ok trBadScope) (.ok uResp0)).1
      = .error (.scopeError defaultScope (pySplitWs (trBadScope.scope.getD ""))) :=
  (exchange_scope_superset st0 Option.none trBadScope uResp0 _ rfl).2 (by decide)
    (.ok uResp0)

/-- Helper: a successful exchange returns the fetched token response, its
refresh token replaced by the access token when it was not truthy. -/
theorem exchange_ok_token (st : SessionState) (rd : Option String)
    (tr : TokenResponse) (uf : Except ExchErr HttpResp)
    (res : ExchangeResult) (st' : SessionState)
    (h : exchange_code_and_fetch_user_info st rd (.ok tr) uf = (.ok res, st')) :
    res.token = if pyTruthy tr.refresh_token then tr
      else { tr with refresh_token := tr.access_token } := by
  have h1 := congrArg Prod.fst h
  by_cases hsub : pySubset defaultScope (pySplitWs (tr.scope.getD "")) = true
  · cases htr : pyTruthy tr.refresh_token <;>
    cases uf with
    | error e => simp [exchange_code_and_fetch_user_info, htr, hsub] at h1
    | ok resp =>
      cases hj : resp.jsonBody with
      | none => simp [exchange_code_and_fetch_user_info, htr, hsub, hj] at h1
      | some j =>
        cases j <;>
          simp [exchange_code_and_fetch_user_info, htr, hsub, hj] at h1 <;>
          simp [← h1, htr]
  · cases htr : pyTruthy tr.refresh_token <;> cases uf <;>
      simp [exchange_code_and_fetch_user_info, htr, hsub] at h1

/-- C3: every successful exchange (on a token response whose access token is
present and non-empty, as any accepted token response carries) returns a
token set with a truthy refresh token, and when the provider omitted the
refresh token it is exactly the access token. -/
theorem exchange_refresh_token_present (st : SessionState) (rd : Option String)
    (tr : TokenResponse) (uf : Except ExchErr HttpResp)
    (res : ExchangeResult) (st' : SessionState)
    (hacc : pyTruthy tr.access_token = true)
    (h : exchange_code_and_fetch_user_info st rd (.ok tr) uf = (.ok res, st')) :
    pyTruthy res.token.refresh_token = true ∧
    (pyTruthy tr.refresh_token = false → res.token.refresh_token = tr.access_token) := by
  have hres := exchange_ok_token st rd tr uf res st' h
  cases htr : pyTruthy tr.refresh_token with
  | true =>
    refine ⟨by simp [hres, htr], fun hf => ?_⟩
    exact absurd hf (by simp [htr])
  | false =>
    exact ⟨by simp [hres, htr, hacc], fun _ => by simp [hres, htr]⟩

/-- C3 witness: a provider response without a refresh token yields a result
whose refresh token equals the access token. -/
theorem exchange_refresh_token_present_witness :
    pyTruthy ((⟨Option.some "AT", Option.some "AT",
        Option.some "read:x profile write:statuses", Option.some "Bearer"⟩ :
          TokenResponse)).refresh_token = true ∧
    (pyTruthy trNoRefresh.refresh_token = false →
      (⟨Option.some "AT", Option.some "AT",
        Option.some "read:x profile write:statuses", Option.some "Bearer"⟩ :
          TokenResponse).refresh_token = trNoRefresh.access_token) := by
  have h := exchange_refresh_token_present st0 Option.none trNoRefresh (.ok uResp0)
    { token := ⟨Option.some "AT", Option.some "AT",
        Option.some "read:x profile write:statuses", Option.some "Bearer"⟩,
      userinfo := { account_identifier := Option.some (.str "alice"),
                    name := Option.some (.str "Alice") } }
    { st0 with token := Option.some ⟨Option.some "AT", Option.some "AT",
        Option.some "read:x profile write:statuses", Option.some "Bearer"⟩ }
    (by decide) rfl
  exact h

/-- C4 counterexample: when the userinfo endpoint answers with an HTTP 401
error response whose body is the JSON error object a Mastodon server sends,
the exchange does not fail: it returns the token together with a userinfo
whose fields are both null. -/
theorem exchange_userinfo_http_error_counterexample :
    uRespErr.ok = false ∧
    (exchange_code_and_fetch_user_info st0 Option.none (.ok tr0) (.ok uRespErr)).1
      = .ok { token := tr0,
              userinfo := { account_identifier := Option.none,
                            name := Option.none } } :=
  ⟨rfl, rfl⟩

/-- C4 amended: if the userinfo fetch raises — a transport or OAuth error,
or a body that is not parseable JSON — the whole exchange fails and the
caller receives neither token nor userinfo; but an HTTP error status alone
is not detected: whenever the body parses to a JSON object and the scopes
suffice, the exchange succeeds, returning the token with identity fields
read from that body. -/
theorem exchange_userinfo_failure_fatal (st : SessionState) (rd : Option String)
    (ft : Except ExchErr TokenResponse) :
    (∀ e, (exchange_code_and_fetch_user_info st rd ft (.error e)).1.isOk = false) ∧
    (∀ resp : HttpResp, resp.jsonBody = Option.none →
      (exchange_code_and_fetch_user_info st rd ft (.ok resp)).1.isOk = false) ∧
    (∀ tr resp fields, ft = .ok tr → resp.jsonBody = Option.some (.obj fields) →
      pySubset defaultScope (pySplitWs (tr.scope.getD "")) = true →
      (exchange_code_and_fetch_user_info st rd ft (.ok resp)).1.isOk = true) := by
  refine ⟨?_, ?_, ?_⟩
  · intro e
    cases ft with
    | error e' => simp [exchange_code_and_fetch_user_info, Except.isOk, Except.toBool]
    | ok tr =>
      cases htr : pyTruthy tr.refresh_token <;>
        by_cases hsub : pySubset defaultScope (pySplitWs (tr.scope.getD "")) = true <;>
        simp_all [exchange_code_and_fetch_user_info, Except.isOk, Except.toBool]
  · intro resp hj
    cases ft with
    | error e' => simp [exchange_code_and_fetch_user_info, Except.isOk, Except.toBool]
    | ok tr =>
      cases htr : pyTruthy tr.refresh_token <;>
        by_cases hsub : pySubset defaultScope (pySplitWs (tr.scope.getD "")) = true <;>
        simp_all [exchange_code_and_fetch_user_info, Except.isOk, Except.toBool]
  · rintro tr resp fields rfl hj hsub
    cases htr : pyTruthy tr.refresh_token <;>
      simp_all [exchange_code_and_fetch_user_info, Except.isOk, Except.toBool]

/-- C4 amended witness: a transport error on the userinfo fetch aborts the
whole exchange, and a parseable error body does not. -/
theorem exchange_userinfo_failure_fatal_witness :
    ((exchange_code_and_fetch_user_info st0 Option.none (.ok tr0)
        (.error (.transportError "connection refused"))).1.isOk = false) ∧
    ((exchange_code_and_fetch_user_info st0 Option.none (.ok tr0)
        (.ok uRespErr)).1.isOk = true) :=
  ⟨(exchange_userinfo_failure_fatal st0 Option.none (.ok tr0)).1
      (.transportError "connection refused"),
   (exchange_userinfo_failure_fatal st0 Option.none (.ok tr0)).2.2 tr0 uRespErr
      [("error", .str "The access token is invalid")] rfl rfl (by decide)⟩

/-- C2: at the failing input — the provider answers the status post with
HTTP 422 and body `unprocessable` — `send_message` raises
`RuntimeError("unprocessable")`, which the `except requests.exceptions.HTTPError`
clause cannot catch, instead of returning the structured
`success: false` result the claim (and the dead handler) describe. -/
theorem send_message_http_error_raises :
    (HttpResp.ok ⟨422, "unprocessable", Option.none⟩ = false) ∧
    send_message tr0 (.ok ⟨⟨422, "unprocessable", Option.none⟩, tr0⟩)
      = .error (.runtimeError "unprocessable") :=
  ⟨rfl, rfl⟩

/-- C6: revocation is binary: a successful HTTP response yields `True`, a
non-success response raises the `RuntimeError` carrying the provider body,
an exception from the revocation call itself propagates, and no run returns
`False` or any other value. -/
theorem revoke_token_binary (token : TokenResponse)
    (call : Except RevokeErr HttpResp) :
    (∀ resp, call = .ok resp → resp.ok = true →
      revoke_token token call = .ok true) ∧
    (∀ resp, call = .ok resp → resp.ok = false →
      revoke_token token call = .error (.runtimeError resp.text)) ∧
    (∀ e, call = .error e → revoke_token token call = .error e) ∧
    (∀ b, revoke_token token call = .ok b → b = true) := by
  refine ⟨?_, ?_, ?_, ?_⟩
  · rintro resp rfl hok
    simp [revoke_token, hok]
  · rintro resp rfl hok
    simp [revoke_token, hok]
  · rintro e rfl
    rfl
  · intro b hb
    cases call with
    | error e => simp [revoke_token] at hb
    | ok resp =>
      by_cases hok : resp.ok = true <;> simp_all [revoke_token]

/-- C6 witness: a 200 revocation response returns `True`. -/
theorem revoke_token_binary_witness :
    revoke_token tr0 (.ok uResp0) = .ok true :=
  (revoke_token_binary tr0 (.ok uResp0)).1 uResp0 rfl (by decide)

/-- The kwargs of a PKCE-requesting call without a verifier. -/
def kwargsPkce : List (String × PyValue) :=
  [("autogenerate_code_verifier", .bool true)]

/-- C5: (1) with PKCE auto-generation requested and no truthy code verifier
supplied, the result carries the generated 48-character code verifier
(48 ≥ 43) and the authorization URL contains `code_challenge_method=S256`;
(2) whenever a code verifier is in play — generated or caller-supplied —
the session's code-challenge method is set to S256, never plain. -/
theorem auth_url_pkce_s256 :
    (∀ (creds : Credentials) (st : SessionState) (rand : Nat → Char)
        (genState : String) (kwargs : List (String × PyValue)),
      ((pyLookup kwargs "code_verifier").getD .none).truthy = false →
      ((pyLookup kwargs "autogenerate_code_verifier").getD (.bool false)).truthy = true →
      (get_authorization_url creds st rand genState kwargs).1.code_verifier
          = .str (generate_token rand 48) ∧
      43 ≤ (generate_token rand 48).length ∧
      strContainsSub
        (get_authorization_url creds st rand genState kwargs).1.authorization_url
        "code_challenge_method=S256") ∧
    (∀ (creds : Credentials) (st : SessionState) (rand : Nat → Char)
        (genState : String) (kwargs : List (String × PyValue)),
      (effectiveVerifier rand kwargs).truthy = true →
      (get_authorization_url creds st rand genState kwargs).2.code_challenge_method
        = Option.some "S256") := by
  have hMeth : ∀ (st : SessionState) (rand : Nat → Char)
      (kwargs : List (String × PyValue)),
      (effectiveVerifier rand kwargs).truthy = true →
      (sessionAfterAuthUrl st rand kwargs).code_challenge_method
        = Option.some "S256" := by
    intro st rand kwargs hv
    by_cases hr : ((pyLookup kwargs "redirect_url").getD .none).truthy = true <;>
      simp [sessionAfterAuthUrl, hv, hr]
  constructor
  · intro creds st rand genState kwargs hcv hauto
    have hEff : effectiveVerifier rand kwargs = .str (generate_token rand 48) := by
      simp [effectiveVerifier, hcv, hauto]
    have hvTruthy : (effectiveVerifier rand kwargs).truthy = true := by
      rw [hEff]; exact generate_token_truthy rand
    refine ⟨by simp [get_authorization_url, hEff], ?_, ?_⟩
    · rw [generate_token_length]
      decide
    · have hlook : pyLookup (mergedAuthParams rand kwargs) "code_verifier"
          = Option.some (.str (generate_token rand 48)) := by
        apply pyLookup_mergeRight_of_some
        simp [processedKwargs, hEff, generate_token_truthy, pyLookup_dictSet_self]
      have hmem : ("code_challenge_method", PyValue.str "S256") ∈
          ([("client_id", PyValue.str creds.client_id),
            ("redirect_uri", (sessionAfterAuthUrl st rand kwargs).redirect_uri)]
            ++ pyDictRemove (pyDictRemove (mergedAuthParams rand kwargs) "state")
                "code_verifier"
            ++ [("state",
                PyValue.str
                  (if ((pyLookup (mergedAuthParams rand kwargs) "state").getD .none).truthy
                    then renderValue ((pyLookup (mergedAuthParams rand kwargs) "state").getD .none)
                    else genState))]
            ++ [("code_challenge",
                  PyValue.str (create_s256_code_challenge
                    (renderValue (.str (generate_token rand 48))))),
                ("code_challenge_method", PyValue.str "S256")]) := by
        exact List.mem_append_right _ (by simp)
      have hcontains := renderQuery_contains _ _ hmem
      have hren : renderPair ("code_challenge_method", PyValue.str "S256")
          = "code_challenge_method=S256" := rfl
      rw [hren] at hcontains
      simp only [get_authorization_url, create_authorization_url]
      rw [hlook, hMeth st rand kwargs hvTruthy]
      simpa [generate_token_truthy] using
        strContainsSub_append_left (auth_uri ++ "?") _ _ hcontains
  · intro creds st rand genState kwargs hv
    simpa [get_authorization_url] using hMeth st rand kwargs hv

/-- C5 witness: the PKCE call on the sample inputs. -/
theorem auth_url_pkce_s256_witness :
    ((get_authorization_url creds0 st0 rand0 "gs" kwargsPkce).1.code_verifier
        = .str (generate_token rand0 48) ∧
      43 ≤ (generate_token rand0 48).length ∧
      strContainsSub
        (get_authorization_url creds0 st0 rand0 "gs" kwargsPkce).1.authorization_url
        "code_challenge_method=S256") ∧
    (get_authorization_url creds0 st0 rand0 "gs" kwargsPkce).2.code_challenge_method
      = Option.some "S256" :=
  ⟨auth_url_pkce_s256.1 creds0 st0 rand0 "gs" kwargsPkce (by decide) (by decide),
   auth_url_pkce_s256.2 creds0 st0 rand0 "gs" kwargsPkce (by decide)⟩

/-- C7 counterexample: a call with PKCE auto-generation and a redirect
override mutates the session: the code-challenge method goes from unset to
S256 and the redirect URI is overwritten. -/
theorem auth_url_mutates_session_counterexample :
    st0.code_challenge_method = Option.none ∧
    (get_authorization_url creds0 st0 rand0 "gs"
        (kwargsPkce ++ [("redirect_url", .str "https://other.example/cb")])
      ).2.code_challenge_method = Option.some "S256" ∧
    st0.redirect_uri = .str "https://app.example/cb" ∧
    (get_authorization_url creds0 st0 rand0 "gs"
        (kwargsPkce ++ [("redirect_url", .str "https://other.example/cb")])
      ).2.redirect_uri = .str "https://other.example/cb" :=
  ⟨rfl, rfl, rfl, rfl⟩

/-- C7 amended: `get_authorization_url` makes no network call (in this
embedding it takes no call outcome: the URL is pure construction) and
leaves the session token untouched; the redirect URI is unchanged whenever
no truthy redirect override is supplied, and the code-challenge method is
unchanged whenever no code verifier is in play — but with a verifier the
method is set to S256, and with a redirect override the redirect URI is
rewritten (the counterexample). -/
theorem auth_url_frame (creds : Credentials) (st : SessionState)
    (rand : Nat → Char) (genState : String) (kwargs : List (String × PyValue)) :
    ((get_authorization_url creds st rand genState kwargs).2.token = st.token) ∧
    (((pyLookup kwargs "redirect_url").getD .none).truthy = false →
      (get_authorization_url creds st rand genState kwargs).2.redirect_uri
        = st.redirect_uri) ∧
    ((effectiveVerifier rand kwargs).truthy = false →
      (get_authorization_url creds st rand genState kwargs).2.code_challenge_method
        = st.code_challenge_method) := by
  refine ⟨?_, ?_, ?_⟩
  · by_cases hv : (effectiveVerifier rand kwargs).truthy = true <;>
    by_cases hr : ((pyLookup kwargs "redirect_url").getD .none).truthy = true <;>
      simp [get_authorization_url, sessionAfterAuthUrl, hv, hr]
  · intro hr
    by_cases hv : (effectiveVerifier rand kwargs).truthy = true <;>
      simp [get_authorization_url, sessionAfterAuthUrl, hv, hr]
  · intro hv
    by_cases hr : ((pyLookup kwargs "redirect_url").getD .none).truthy = true <;>
      simp [get_authorization_url, sessionAfterAuthUrl, hv, hr]

/-- C7 amended witness: a plain call (no PKCE, no overrides) leaves all
three session fields unchanged. -/
theorem auth_url_frame_witness :
    ((get_authorization_url creds0 st0 rand0 "gs" []).2.token = st0.token) ∧
    ((get_authorization_url creds0 st0 rand0 "gs" []).2.redirect_uri
      = st0.redirect_uri) ∧
    ((get_authorization_url creds0 st0 rand0 "gs" []).2.code_challenge_method
      = st0.code_challenge_method) :=
  ⟨(auth_url_frame creds0 st0 rand0 "gs" []).1,
   (auth_url_frame creds0 st0 rand0 "gs" []).2.1 (by decide),
   (auth_url_frame creds0 st0 rand0 "gs" []).2.2 (by decide)⟩

/-- C8: the query parameters sent to the authorize endpoint are the default
scope/response-type parameters merged with the caller-supplied parameters
(as processed at line 138 of `adapter.py`): on a key collision the caller's
value wins, and a key the caller does not supply keeps its default. -/
theorem auth_params_merge (rand : Nat → Char)
    (kwargs : List (String × PyValue)) (k : String) :
    (∀ v, pyLookup (processedKwargs rand kwargs) k = Option.some v →
      pyLookup (mergedAuthParams rand kwargs) k = Option.some v) ∧
    (pyLookup (processedKwargs rand kwargs) k = Option.none →
      pyLookup (mergedAuthParams rand kwargs) k = pyLookup default_params k) :=
  ⟨fun _ h => pyLookup_mergeRight_of_some _ _ _ _ h,
   fun h => pyLookup_mergeRight_of_none _ _ _ h⟩

/-- C8 witness: a caller-supplied scope overrides the default, and the
untouched response type keeps its default value. -/
theorem auth_params_merge_witness :
    pyLookup (mergedAuthParams rand0 [("scope", PyValue.str "read")]) "scope"
      = Option.some (PyValue.str "read") ∧
    pyLookup (mergedAuthParams rand0 [("scope", PyValue.str "read")]) "response_type"
      = Option.some (PyValue.str "code") :=
  ⟨(auth_params_merge rand0 [("scope", PyValue.str "read")] "scope").1
      (PyValue.str "read") (by decide),
   ((auth_params_merge rand0 [("scope", PyValue.str "read")] "response_type").2
      (by decide)).trans (by decide)⟩

/-- C9: writing the exchange result to an existing JSON object replaces the
`token` and `userinfo` keys with the new values and preserves every other
key's value; when the file does not exist the result is written into an
empty object. -/
theorem exchange_output_merge (existing : List (String × Json)) (t u : Json) :
    pyLookup (exchangeOutputWrite (Option.some existing) t u) "token"
      = Option.some t ∧
    pyLookup (exchangeOutputWrite (Option.some existing) t u) "userinfo"
      = Option.some u ∧
    (∀ k, k ≠ "token" → k ≠ "userinfo" →
      pyLookup (exchangeOutputWrite (Option.some existing) t u) k
        = pyLookup existing k) ∧
    exchangeOutputWrite Option.none t u = [("token", t), ("userinfo", u)] := by
  refine ⟨?_, ?_, ?_, rfl⟩
  · exact pyLookup_mergeRight_of_some _ _ _ _ (by simp [pyLookup])
  · exact pyLookup_mergeRight_of_some _ _ _ _ (by simp [pyLookup])
  · intro k hk1 hk2
    exact pyLookup_mergeRight_of_none _ _ _
      (by simp [pyLookup, Ne.symm hk1, Ne.symm hk2])

/-- C9 witness: merging into a file that already holds an extra key and a
stale token keeps the extra key and replaces the token. -/
theorem exchange_output_merge_witness :
    pyLookup (exchangeOutputWrite
        (Option.some [("extra", Json.str "e"), ("token", Json.str "old")])
        (Json.str "newT") (Json.str "newU")) "extra"
      = Option.some (Json.str "e") ∧
    pyLookup (exchangeOutputWrite
        (Option.some [("extra", Json.str "e"), ("token", Json.str "old")])
        (Json.str "newT") (Json.str "newU")) "token"
      = Option.some (Json.str "newT") :=
  ⟨((exchange_output_merge [("extra", Json.str "e"), ("token", Json.str "old")]
      (Json.str "newT") (Json.str "newU")).2.2.1 "extra" (by decide)
      (by decide)).trans rfl,
   (exchange_output_merge [("extra", Json.str "e"), ("token", Json.str "old")]
      (Json.str "newT") (Json.str "newU")).1⟩

/-- C10 counterexample: with `--code ""` explicitly supplied (the empty
string) and an input file carrying `authorization_code: "abc"`, the file's
value is used rather than the supplied option's value. -/
theorem exchange_cli_empty_code_counterexample :
    (resolveExchangeArgs (Option.some "") Option.none Option.none
        [("authorization_code", Json.str "abc")]).code
      = Option.some (Json.str "abc") ∧
    "abc" ≠ "" :=
  ⟨rfl, by decide⟩

/-- C10 amended: a command-line option takes precedence exactly when its
value is truthy (non-empty); an option left unsupplied or supplied as the
empty string falls back to the input file's value; and
`request_identifier` is always taken from the file. -/
theorem exchange_cli_precedence (code verifier redirect : Option String)
    (fileParams : List (String × Json)) :
    (∀ s, code = Option.some s → s ≠ "" →
      (resolveExchangeArgs code verifier redirect fileParams).code
        = Option.some (.str s)) ∧
    ((code = Option.none ∨ code = Option.some "") →
      (resolveExchangeArgs code verifier redirect fileParams).code
        = pyLookup fileParams "authorization_code") ∧
    (∀ s, verifier = Option.some s → s ≠ "" →
      (resolveExchangeArgs code verifier redirect fileParams).verifier
        = Option.some (.str s)) ∧
    ((verifier = Option.none ∨ verifier = Option.some "") →
      (resolveExchangeArgs code verifier redirect fileParams).verifier
        = pyLookup fileParams "code_verifier") ∧
    (∀ s, redirect = Option.some s → s ≠ "" →
      (resolveExchangeArgs code verifier redirect fileParams).redirect
        = Option.some (.str s)) ∧
    ((redirect = Option.none ∨ redirect = Option.some "") →
      (resolveExchangeArgs code verifier redirect fileParams).redirect
        = pyLookup fileParams "redirect_uri") ∧
    (resolveExchangeArgs code verifier redirect fileParams).request_identifier
      = pyLookup fileParams "request_identifier" := by
  refine ⟨?_, ?_, ?_, ?_, ?_, ?_, rfl⟩
  · rintro s rfl hs
    simp [resolveExchangeArgs, pyOrJ, cliOpt, jTruthy, hs]
  · rintro (rfl | rfl) <;> simp [resolveExchangeArgs, pyOrJ, cliOpt, jTruthy]
  · rintro s rfl hs
    simp [resolveExchangeArgs, pyOrJ, cliOpt, jTruthy, hs]
  · rintro (rfl | rfl) <;> simp [resolveExchangeArgs, pyOrJ, cliOpt, jTruthy]
  · rintro s rfl hs
    simp [resolveExchangeArgs, pyOrJ, cliOpt, jTruthy, hs]
  · rintro (rfl | rfl) <;> simp [resolveExchangeArgs, pyOrJ, cliOpt, jTruthy]

/-- C10 amended witness: a non-empty `--code` wins over the file, an absent
`--verifier` falls back to the file, and the request identifier comes from
the file. -/
theorem exchange_cli_precedence_witness :
    (resolveExchangeArgs (Option.some "c0") Option.none Option.none
        [("authorization_code", Json.str "abc"), ("code_verifier", Json.str "v1"),
         ("request_identifier", Json.str "rid")]).code
      = Option.some (.str "c0") ∧
    (resolveExchangeArgs (Option.some "c0") Option.none Option.none
        [("authorization_code", Json.str "abc"), ("code_verifier", Json.str "v1"),
         ("request_identifier", Json.str "rid")]).verifier
      = pyLookup [("authorization_code", Json.str "abc"),
          ("code_verifier", Json.str "v1"),
          ("request_identifier", Json.str "rid")] "code_verifier" :=
  ⟨(exchange_cli_precedence (Option.some "c0") Option.none Option.none
      [("authorization_code", Json.str "abc"), ("code_verifier", Json.str "v1"),
       ("request_identifier", Json.str "rid")]).1 "c0" rfl (by decide),
   (exchange_cli_precedence (Option.some "c0") Option.none Option.none
      [("authorization_code", Json.str "abc"), ("code_verifier", Json.str "v1"),
       ("request_identifier", Json.str "rid")]).2.2.2.1 (Or.inl rfl)⟩

end MastodonOAuth2
